import Mathlib

/-!
Verification of the narwhal CI control plane against its specification.

The Go sources are shallowly embedded: each Go function used by a claim is
translated into an executable Lean definition over explicit state.  Go maps
keyed by strings or by pointer identity become association lists; the
mutable `rpcClient` field of heap-allocated proxies becomes a side table in
the registry state; effectful collaborators (tcp dial, http probes, git
clone, docker calls) are passed in as explicit outcome parameters.  Loops
without a structural bound are indexed by fuel counting loop-body
executions, so that non-termination is visible as `none` for every fuel.
-/

deriving instance DecidableEq for Except

/-! ## core/repository.go and core/commitstore.go -/

/-- Go `core.Repository` (core/repository.go).  `HostingService` is a string
type in the source, so it is a plain `String` here; the unexported
`commitHistory` slice plays no role in any claim and is omitted. -/
structure Repository where
  hostingService : String
  name : String
  branch : String
deriving DecidableEq, Repr

/-- Go `core.Repository.CloneCommand` (core/repository.go:56-70): a switch on
the hosting service producing a `git clone` command line, or an error for
any other hosting service. -/
def Repository.CloneCommand (r : Repository) (path : String) : Except String String :=
  if r.hostingService = "github" then
    Except.ok ("git clone -b " ++ r.branch ++ " https://github.com/" ++ r.name ++ " " ++ path)
  else if r.hostingService = "gitlab" then
    Except.ok ("git clone -b " ++ r.branch ++ " https://gitlab.com/" ++ r.name ++ " " ++ path)
  else if r.hostingService = "bitbucket" then
    Except.ok ("git clone -b " ++ r.branch ++ " https://bitbucket.com/" ++ r.name ++ " " ++ path)
  else
    Except.error (r.hostingService ++ " hosting service not supported")

/-- Go `core.Commit` (core/commitstore.go:51-56); the unexported `cTime`
timestamp is irrelevant to the claims and omitted. -/
structure Commit where
  id : String
  language : String := ""
  repository : Repository
deriving DecidableEq, Repr

/-- Go `strings.Split(s, " ")` for the single-space separator: split at every
occurrence of the separator character, keeping empty fields.  Implemented
structurally over the character list so that concrete commands evaluate. -/
def goSplitSpace (s : String) : List String :=
  (s.toList.splitOn ' ').map (fun cs => String.mk cs)

/-- Go `core.Commit.Cmd` (core/commitstore.go:83-89): clone command for the
path `"/" + c.Id`, split on single spaces exactly as `strings.Split(cmd, " ")`. -/
def Commit.Cmd (c : Commit) : Except String (List String) :=
  match c.repository.CloneCommand ("/" ++ c.id) with
  | Except.error e => Except.error e
  | Except.ok cmd => Except.ok (goSplitSpace cmd)

/-! ## runner/commitstore.go (package runner): CommitJob and CommitStore -/

/-- Go `runner.JobSpec` (runner commitstore iteration). -/
structure JobSpec where
  dependencies : List String := []
  cmd : String := ""
deriving DecidableEq, Repr

/-- Go `runner.CommitJob` (runner commitstore iteration). -/
structure CommitJob where
  id : String
  language : String := ""
  repository : Repository
  specs : JobSpec := {}
deriving DecidableEq, Repr

/-- Insert-or-overwrite into an association list, modelling a Go map write
`m[k] = v`. -/
def putAssoc {α β : Type} [BEq α] : List (α × β) → α → β → List (α × β)
  | [], k, v => [(k, v)]
  | (k', v') :: rest, k, v =>
      if k' == k then (k, v) :: rest else (k', v') :: putAssoc rest k v

/-- Go `runner.CommitStore` (map repository name to last admitted commit),
as an association list in insertion order. -/
structure CommitStore where
  repositories : List (String × CommitJob) := []
deriving DecidableEq, Repr

/-- Go `runner.CommitStore.PutCommit`: `cs.repositories[c.Repository.Name] = c`. -/
def CommitStore.PutCommit (cs : CommitStore) (c : CommitJob) : CommitStore :=
  { repositories := putAssoc cs.repositories c.repository.name c }

/-- Go `runner.CommitStore.GetCommit`: map lookup with its presence flag. -/
def CommitStore.GetCommit (cs : CommitStore) (repo : String) : Option CommitJob :=
  cs.repositories.lookup repo

/-! ## runner/runner.go: RunnerProxy and RunnerRegistry -/

/-- Go `runner.RunnerProxy` (runner/runner.go:48-51).  `id` models the pointer
identity of the heap-allocated `*RunnerProxy`: the Go registry map is keyed
by this pointer, and two distinct allocations are distinct keys no matter
what `Addr` they carry.  The mutable `rpcClient` field lives in
`RunnerRegistry.rpcClients` below, since it is written through the pointer. -/
structure RunnerProxy where
  id : Nat
  Addr : String
deriving DecidableEq, Repr

/-- Go `runner.RunnerRegistry` (runner/runner.go:55-72) together with the heap
state its operations reach through pointers:
* `runners` is the map `map[*RunnerProxy]bool` in insertion order (the bool is
  the value the registry stores for the handle, set to `true` on insert);
* `rpcClients` maps a proxy's pointer identity to the open rpc channel stored
  in its `rpcClient` field; absence models a nil `rpcClient`;
* `forwarded` records the jobs handed to `go registry.forwardToRunnerProxy(c)`
  by `EnqueueCommit`, in order. -/
structure RunnerRegistry where
  runners : List (RunnerProxy × Bool) := []
  current : Nat := 0
  store : CommitStore := {}
  rpcClients : List (Nat × Nat) := []
  forwarded : List CommitJob := []
deriving DecidableEq, Repr

/-- Go `runner.RunnerRegistry.AddRunnerProxy` (runner/runner.go:136-149).
`dial` is the outcome of `rpc.Dial("tcp", r.Addr)`: `some ch` a connected
client, `none` a dial error.  The pair returned is (function result, state
after the call). -/
def RunnerRegistry.AddRunnerProxy (reg : RunnerRegistry) (r : RunnerProxy)
    (dial : Option Nat) : Except String Unit × RunnerRegistry :=
  if reg.runners.any (fun p => p.1.id == r.id) then
    (Except.error "RunnerProxy already present in the registry", reg)
  else
    match dial with
    | none => (Except.error "dial tcp: connection refused", reg)
    | some ch =>
        (Except.ok (),
         { reg with runners := reg.runners ++ [(r, true)],
                    rpcClients := putAssoc reg.rpcClients r.id ch })

/-- Go `runner.RunnerRegistry.RemoveRunnerProxy` (runner/runner.go:151-156).
The body runs `r.rpcClient.Close()` before `delete(registry.runners, r)`;
when `r.rpcClient` is nil the `Close` call dereferences a nil pointer and
the process crashes, modelled as `none`.  `Close` on an open or already
closed client only returns an (ignored) error and leaves the field set,
so `rpcClients` is unchanged on the non-crashing path. -/
def RunnerRegistry.RemoveRunnerProxy (reg : RunnerRegistry) (r : RunnerProxy) :
    Option RunnerRegistry :=
  match reg.rpcClients.lookup r.id with
  | none => none
  | some _ =>
      some { reg with runners := reg.runners.filter (fun p => !(p.1.id == r.id)) }

/-- The admission test of Go `runner.RunnerRegistry.EnqueueCommit`
(runner/runner.go:198-202): an entry for the repository name exists and its
stored id equals the event's id. -/
def alreadyExecuted (store : CommitStore) (c : CommitJob) : Bool :=
  match store.GetCommit c.repository.name with
  | some cmt => cmt.id == c.id
  | none => false

/-- Go `runner.RunnerRegistry.EnqueueCommit` (runner/runner.go:197-206):
reject a duplicate, otherwise overwrite the store entry and hand the job to
a forwarding goroutine (recorded in `forwarded`). -/
def RunnerRegistry.EnqueueCommit (reg : RunnerRegistry) (c : CommitJob) :
    Except String Unit × RunnerRegistry :=
  if alreadyExecuted reg.store c then
    (Except.error "Commit already executed", reg)
  else
    (Except.ok (),
     { reg with store := reg.store.PutCommit c,
                forwarded := reg.forwarded ++ [c] })

/-! ## Round-robin selection loops

Both `core.RunnerPool.ForwardToRunner` (the dispatcher-task loop, with its
all-dead abort check) and `dispatcher.TestRunnerPool.getRunner` /
`core.TestRunnerPool.EnqueueCommitExecution` (without that check) contain the
same scan loop over the snapshot of handles:

    for index = current % runners; keys[index].Alive() == false; {
        index = current % runners
        current++
    }

A handle snapshot is a `List Bool` of alive flags in a fixed iteration
order.  `rrScan` is this loop with `fuel` bounding the number of body
executions: `some (index, current)` means the loop exited with that chosen
index and cursor, `none` that it was still running after `fuel` steps. -/
def rrScan (keys : List Bool) (index cur fuel : Nat) : Option (Nat × Nat) :=
  if keys.getD index false = true then some (index, cur)
  else
    match fuel with
    | 0 => none
    | fuel + 1 => rrScan keys (cur % keys.length) (cur + 1) fuel

/-- Go `core.RunnerPool` (src/unnamed/part_008:44-72) restricted to the state
the dispatcher-task loop reads: the snapshot of registered runners' alive
flags in a fixed iteration order, and the round-robin cursor. -/
structure RunnerPool where
  keys : List Bool
  current : Nat
deriving DecidableEq, Repr

/-- One queue item processed by Go `core.RunnerPool.ForwardToRunner`
(src/unnamed/part_008:132-177): empty registry drops the job; the abort
check drops it when no snapshot entry is alive; otherwise the scan loop
selects a handle and the commit is forwarded to it.  Returns the selected
handle index (none when dropped) and the pool state after the iteration.
The fuel `keys.length + 1` covers the longest possible scan to an alive
handle. -/
def RunnerPool.forwardOne (pool : RunnerPool) : Option Nat × RunnerPool :=
  if pool.keys.length = 0 then (none, pool)
  else if pool.keys.any (fun a => a) = false then (none, pool)
  else
    match rrScan pool.keys (pool.current % pool.keys.length) pool.current
        (pool.keys.length + 1) with
    | some (i, cur) => (some i, { pool with current := cur })
    | none => (none, pool)

/-- `n` jobs dispatched through a single dispatcher task executing
`ForwardToRunner`: the list of selected handle indices in order, and the
final pool state. -/
def RunnerPool.dispatch (pool : RunnerPool) : Nat → List Nat × RunnerPool
  | 0 => ([], pool)
  | n + 1 =>
      let step := pool.forwardOne
      let rest := step.2.dispatch n
      (step.1.toList ++ rest.1, rest.2)

/-- Go `dispatcher.TestRunnerPool.getRunner` (dispatcher/repostore.go:185-197),
the same selection without any all-dead abort check, over a snapshot of
alive flags: an empty registry returns the error; otherwise the body is the
unbounded scan loop, indexed here by `fuel`.  `Except.ok none` means the
loop was still running after `fuel` body executions; the source loop has no
other way out than finding an alive handle. -/
def getRunner (keys : List Bool) (cur fuel : Nat) :
    Except String (Option (Nat × Nat)) :=
  if keys.length = 0 then Except.error "No runners available"
  else Except.ok (rrScan keys (cur % keys.length) cur fuel)

/-! ## core/runner.go health checks (value receivers) -/

/-- Go `core.ServerRunner` (core/runner.go:87-90). -/
structure ServerRunner where
  URL : String
  alive : Bool
deriving DecidableEq, Repr

/-- Go `core.ServerRunner.SetAlive` (core/runner.go:225-227).  The receiver is
a VALUE (`func (tr ServerRunner) SetAlive(alive bool)`), so the assignment
`tr.alive = alive` lands on the copy the method received; that copy is
returned here and the Go caller discards it. -/
def ServerRunner.SetAlive (tr : ServerRunner) (alive : Bool) : ServerRunner :=
  { tr with alive := alive }

/-- Go `core.ServerRunner.HealthCheck` (core/runner.go:229-236), again a VALUE
receiver.  `probeErr` models `err != nil` from `http.Get`, `status` the
reply code.  The function returns the method's local copy of the receiver
after the body ran: on a failed probe it calls `tr.SetAlive(false)` - itself
a value-receiver call whose result is discarded, so even the local copy
keeps its alive bit; on a successful probe `tr.alive = true` updates the
local copy. -/
def ServerRunner.HealthCheck (tr : ServerRunner) (probeErr : Bool) (status : Nat) :
    ServerRunner :=
  if probeErr = true ∨ status ≠ 200 then
    let _discarded := tr.SetAlive false
    tr
  else
    { tr with alive := true }

/-- The registry-visible effect of one probe in Go
`core.TestRunnerPool.HealthCheck` (core/runner.go:349-353): it calls
`t.HealthCheck()` on the stored handle, and since `HealthCheck` has a value
receiver the method operates on a copy, leaving the stored handle exactly
as it was. -/
def healthCheckStored (tr : ServerRunner) (probeErr : Bool) (status : Nat) :
    ServerRunner :=
  let _copy := tr.HealthCheck probeErr status
  tr

/-- Go `dispatcher.TestRunnerServer` (dispatcher/repostore.go:72-75). -/
structure TestRunnerServer where
  URL : String
  alive : Bool
deriving DecidableEq, Repr

/-- Go `dispatcher.TestRunnerServer.SetAlive` (dispatcher/repostore.go:129-131),
value receiver: the mutation lands on a copy, returned here and discarded
by the Go caller. -/
def TestRunnerServer.SetAlive (tr : TestRunnerServer) (alive : Bool) :
    TestRunnerServer :=
  { tr with alive := alive }

/-- Go `dispatcher.TestRunnerServer.HealthCheck` (dispatcher/repostore.go:133-138),
value receiver.  On a failed probe it calls `tr.SetAlive(false)` (a
value-receiver call whose result is discarded); on a successful probe it
does nothing at all, so the local copy is returned unchanged either way. -/
def TestRunnerServer.HealthCheck (tr : TestRunnerServer) (probeErr : Bool)
    (status : Nat) : TestRunnerServer :=
  if probeErr = true ∨ status ≠ 200 then
    let _discarded := tr.SetAlive false
    tr
  else
    tr

/-! ## backend/runner.go: worker executor -/

/-- Outcome of `ioutil.TempDir(TEMPDIR, name)` in `backend.cloneRepository`. -/
inductive TempDirResult where
  | err
  | ok (dir : String)
deriving DecidableEq, Repr

/-- Outcome of `git.PlainClone` in `backend.cloneRepository`. -/
inductive GitCloneResult where
  | err
  | ok
deriving DecidableEq, Repr

/-- Outcome of `LoadCIConfigFromFile` in `backend.Runner.RunCommitJob`. -/
inductive ManifestResult where
  | err
  | ok
deriving DecidableEq, Repr

/-- Go `backend.cloneRepository` (backend/runner.go:62-79).  First component:
the function's `(string, error)` result.  Second component: whether a
temporary directory created by this call still exists when it returns.  On
a `PlainClone` error the function returns the error WITHOUT removing the
directory `ioutil.TempDir` just created. -/
def cloneRepository (td : TempDirResult) (g : GitCloneResult) :
    Except String String × Bool :=
  match td with
  | TempDirResult.err => (Except.error "tempdir error", false)
  | TempDirResult.ok dir =>
      match g with
      | GitCloneResult.err => (Except.error "clone error", true)
      | GitCloneResult.ok => (Except.ok dir, true)

/-- Go `backend.Runner.RunCommitJob` (backend/runner.go:81-97).  First
component: the RPC reply/error.  Second component: whether the temporary
clone directory exists after the call returns.  `defer os.RemoveAll(dir)`
is registered only after `cloneRepository` returned successfully, so it
runs (removing the directory) on the manifest-failure and success paths,
while a clone-stage error propagates with the directory state
`cloneRepository` left behind. -/
def RunCommitJob (td : TempDirResult) (g : GitCloneResult) (m : ManifestResult) :
    Except String String × Bool :=
  match cloneRepository td g with
  | (Except.error e, dirExists) => (Except.error e, dirExists)
  | (Except.ok _dir, _) =>
      match m with
      | ManifestResult.err => (Except.error "manifest error", false)
      | ManifestResult.ok => (Except.ok "OK", false)

/-! ## Panic behaviour of the executors (C6) -/

/-- Result of running a Go function body that may panic. -/
inductive GoOutcome (α : Type) where
  | panicked (msg : String)
  | ret (a : α)
deriving DecidableEq, Repr

/-- Outcomes of the docker-client calls `backend.runContainer` performs, in
call order. -/
structure DockerOps where
  newEnvClient : Except String Unit
  imagePull : Except String Unit
  containerCreate : Except String String
  containerStart : Except String Unit
  containerWait : Except String Unit
  containerLogs : Except String Unit
deriving DecidableEq, Repr

/-- Go `backend.runContainer` (backend/runner.go:244-283): every failing
docker call is answered with `panic(err)`; only when all six calls succeed
does the function return normally. -/
def runContainer (ops : DockerOps) : GoOutcome Unit :=
  match ops.newEnvClient with
  | Except.error e => GoOutcome.panicked e
  | Except.ok _ =>
      match ops.imagePull with
      | Except.error e => GoOutcome.panicked e
      | Except.ok _ =>
          match ops.containerCreate with
          | Except.error e => GoOutcome.panicked e
          | Except.ok _cid =>
              match ops.containerStart with
              | Except.error e => GoOutcome.panicked e
              | Except.ok _ =>
                  match ops.containerWait with
                  | Except.error e => GoOutcome.panicked e
                  | Except.ok _ =>
                      match ops.containerLogs with
                      | Except.error e => GoOutcome.panicked e
                      | Except.ok _ => GoOutcome.ret ()

/-- Go `runner.CommitJobReply` as used by `RunnerProxy.ExecuteCommitJob`
(runner/runner.go:74-120). -/
structure CommitJobReply where
  Ok : Bool
  ErrMsg : String := ""
deriving DecidableEq, Repr

/-- Go `runner.RunnerProxy.ExecuteCommitJob` (runner/runner.go:74-120): each
failing step (docker client creation, image pull, command construction,
container create, container start) sends `CommitJobReply{false, err}` on the
reply channel and returns; no path panics. -/
def ExecuteCommitJob (envClient pull : Except String Unit)
    (cmd : Except String (List String)) (create : Except String String)
    (start : Except String Unit) : GoOutcome CommitJobReply :=
  match envClient with
  | Except.error e => GoOutcome.ret { Ok := false, ErrMsg := e }
  | Except.ok _ =>
      match pull with
      | Except.error e => GoOutcome.ret { Ok := false, ErrMsg := e }
      | Except.ok _ =>
          match cmd with
          | Except.error e => GoOutcome.ret { Ok := false, ErrMsg := e }
          | Except.ok _ =>
              match create with
              | Except.error e => GoOutcome.ret { Ok := false, ErrMsg := e }
              | Except.ok _cid =>
                  match start with
                  | Except.error e => GoOutcome.ret { Ok := false, ErrMsg := e }
                  | Except.ok _ => GoOutcome.ret { Ok := true }

/-! # Theorems -/

/-! ## Helper lemmas -/

theorem lookup_putAssoc_self {α β : Type} [BEq α] [LawfulBEq α]
    (l : List (α × β)) (k : α) (v : β) :
    (putAssoc l k v).lookup k = some v := by
  induction l with
  | nil => simp [putAssoc, List.lookup]
  | cons hd tl ih =>
      obtain ⟨k', v'⟩ := hd
      by_cases h : k' == k
      · simp [putAssoc, h, List.lookup]
      · have hne : k ≠ k' := fun he => h (by simp [he])
        simp only [putAssoc, h]
        simp only [Bool.false_eq_true, if_false, List.lookup]
        rw [show (k == k') = false from beq_eq_false_iff_ne.mpr hne]
        exact ih

theorem getD_false_of_all_false (l : List Bool) (h : ∀ b ∈ l, b = false) :
    ∀ i, l.getD i false = false := by
  induction l with
  | nil => intro i; simp [List.getD]
  | cons b tl ih =>
      intro i
      cases i with
      | zero => simpa using h b (by simp)
      | succ j => simpa using ih (fun x hx => h x (by simp [hx])) j

theorem getD_true_of_all_true (l : List Bool) (h : ∀ b ∈ l, b = true) :
    ∀ i, i < l.length → l.getD i false = true := by
  induction l with
  | nil => intro i hi; simp at hi
  | cons b tl ih =>
      intro i hi
      cases i with
      | zero => simpa using h b (by simp)
      | succ j =>
          simp only [List.getD_cons_succ]
          exact ih (fun x hx => h x (by simp [hx])) j (by simpa using hi)

theorem rrScan_all_dead (keys : List Bool) (h : ∀ b ∈ keys, b = false) :
    ∀ fuel index cur, rrScan keys index cur fuel = none := by
  intro fuel
  induction fuel with
  | zero =>
      intro index cur
      simp only [rrScan]
      rw [getD_false_of_all_false keys h index]
      simp
  | succ f ih =>
      intro index cur
      simp only [rrScan]
      rw [getD_false_of_all_false keys h index]
      simpa using ih (cur % keys.length) (cur + 1)

theorem alreadyExecuted_iff (store : CommitStore) (c : CommitJob) :
    alreadyExecuted store c = true ↔
      ∃ cmt, store.GetCommit c.repository.name = some cmt ∧ cmt.id = c.id := by
  cases hg : store.GetCommit c.repository.name with
  | none => simp [alreadyExecuted, hg]
  | some cmt => simp [alreadyExecuted, hg]

/-! ## Claim C1 -/

/-- Claim C1: admission of a commit event (`RunnerRegistry.EnqueueCommit`)
rejects with the already-processed error exactly when the commit store holds
an entry for `event.repository.name` whose id equals the event's id, and the
rejection leaves the state untouched; in every other case it overwrites that
store entry with the event's commit, hands the job to the forwarding
goroutine, and accepts, so after an accepted admission the store entry for
the repository name is the admitted commit (in particular its id). -/
theorem enqueueCommit_admission (reg : RunnerRegistry) (c : CommitJob) :
    ((reg.EnqueueCommit c).1 = Except.error "Commit already executed" ↔
        ∃ cmt, reg.store.GetCommit c.repository.name = some cmt ∧ cmt.id = c.id)
    ∧ ((reg.EnqueueCommit c).1 = Except.ok () →
        (reg.EnqueueCommit c).2.store.GetCommit c.repository.name = some c
        ∧ (reg.EnqueueCommit c).2.forwarded = reg.forwarded ++ [c])
    ∧ ((reg.EnqueueCommit c).1 = Except.error "Commit already executed" →
        (reg.EnqueueCommit c).2 = reg)
    ∧ ((reg.EnqueueCommit c).1 = Except.ok ()
        ∨ (reg.EnqueueCommit c).1 = Except.error "Commit already executed") := by
  by_cases h : alreadyExecuted reg.store c
  · refine ⟨?_, ?_, ?_, ?_⟩
    · simp only [RunnerRegistry.EnqueueCommit, h, if_true]
      simpa using (alreadyExecuted_iff reg.store c).mp h
    · intro hok
      simp [RunnerRegistry.EnqueueCommit, h] at hok
    · intro _
      simp [RunnerRegistry.EnqueueCommit, h]
    · simp [RunnerRegistry.EnqueueCommit, h]
  · have h' : alreadyExecuted reg.store c = false := by simpa using h
    refine ⟨?_, ?_, ?_, ?_⟩
    · constructor
      · intro herr
        simp [RunnerRegistry.EnqueueCommit, h'] at herr
      · intro hdup
        exact absurd ((alreadyExecuted_iff reg.store c).mpr hdup) h
    · intro _
      refine ⟨?_, ?_⟩
      · simp [RunnerRegistry.EnqueueCommit, h', CommitStore.GetCommit,
              CommitStore.PutCommit, lookup_putAssoc_self]
      · simp [RunnerRegistry.EnqueueCommit, h']
    · intro herr
      simp [RunnerRegistry.EnqueueCommit, h'] at herr
    · simp [RunnerRegistry.EnqueueCommit, h']

theorem cloneCommand_c7 :
    (Commit.Cmd { id := "ab23f",
                  repository := { hostingService := "github",
                                  name := "johndoe/test-repo",
                                  branch := "master" } }
      = Except.ok ["git", "clone", "-b", "master",
                   "https://github.com/johndoe/test-repo", "/ab23f"])
    ∧ ∀ (r : Repository) (path : String),
        (∃ e, r.CloneCommand path = Except.error e) ↔
          (r.hostingService ≠ "github" ∧ r.hostingService ≠ "gitlab" ∧
            r.hostingService ≠ "bitbucket") := by
  refine ⟨rfl, ?_⟩
  intro r path
  by_cases h1 : r.hostingService = "github"
  · simp [Repository.CloneCommand, h1]
  · by_cases h2 : r.hostingService = "gitlab"
    · simp [Repository.CloneCommand, h1, h2]
    · by_cases h3 : r.hostingService = "bitbucket"
      · simp [Repository.CloneCommand, h1, h2, h3]
      · simp [Repository.CloneCommand, h1, h2, h3]

/-! ## Claim C2 -/

/-- Claim C2 counterexample: a pool of two registered handles, both alive,
cursor 0, dispatching n = 2 jobs through a single dispatcher task.  Strict
round-robin fairness would give each handle 2/2 = 1 job, but both jobs go
to handle 0 and handle 1 receives 0 jobs, which is neither ⌊2/2⌋ nor
⌈2/2⌉: the scan loop of ForwardToRunner leaves the cursor untouched
whenever the handle at `current % k` is already alive. -/
theorem forwardToRunner_unfair_cex :
    (RunnerPool.dispatch { keys := [true, true], current := 0 } 2).1 = [0, 0]
    ∧ (RunnerPool.dispatch { keys := [true, true], current := 0 } 2).1.count 1 ≠ 2 / 2
    ∧ (RunnerPool.dispatch { keys := [true, true], current := 0 } 2).1.count 1
        ≠ (2 + 2 - 1) / 2 := by
  decide

theorem forwardOne_all_alive (pool : RunnerPool) (hne : pool.keys ≠ [])
    (hall : ∀ b ∈ pool.keys, b = true) :
    pool.forwardOne = (some (pool.current % pool.keys.length), pool) := by
  have hlen : pool.keys.length ≠ 0 := by
    simpa [List.length_eq_zero] using hne
  have hpos : 0 < pool.keys.length := Nat.pos_of_ne_zero hlen
  have hany : pool.keys.any (fun a => a) = true := by
    rcases hk : pool.keys with _ | ⟨b, tl⟩
    · exact absurd hk hne
    · have hb := hall b (by rw [hk]; simp)
      simp [hb]
  have hget : pool.keys.getD (pool.current % pool.keys.length) false = true :=
    getD_true_of_all_true pool.keys hall _ (Nat.mod_lt _ hpos)
  have hscan : rrScan pool.keys (pool.current % pool.keys.length) pool.current
      (pool.keys.length + 1) = some (pool.current % pool.keys.length, pool.current) := by
    simp only [rrScan]
    rw [hget]
    simp
  simp only [RunnerPool.forwardOne, hlen, if_false, hany]
  simp [hscan]

/-- Claim C2 amended: with all k ≥ 1 handles of the snapshot alive, the scan
loop of `ForwardToRunner` exits at once without ever executing its
cursor-incrementing body, so a single dispatcher task sends every one of n
dispatched jobs to the same handle - the one at position `current mod k` -
and the cursor is left unchanged; the ⌊n/k⌋/⌈n/k⌉ fairness bound therefore
fails for every k ≥ 2, n ≥ 2 (the cursor advances only while stepping past
dead handles). -/
theorem forwardToRunner_all_alive_one_handle (pool : RunnerPool) (n : Nat)
    (hne : pool.keys ≠ []) (hall : ∀ b ∈ pool.keys, b = true) :
    pool.dispatch n = (List.replicate n (pool.current % pool.keys.length), pool) := by
  induction n with
  | zero => simp [RunnerPool.dispatch]
  | succ m ih =>
      simp only [RunnerPool.dispatch, forwardOne_all_alive pool hne hall, ih]
      simp [List.replicate_succ]

/-- Witness for C2's amended theorem at a concrete pool: three alive
handles, cursor 1, four jobs - all four go to handle 1 % 3 and the cursor
stays 1. -/
theorem forwardToRunner_all_alive_one_handle_witness :
    RunnerPool.dispatch { keys := [true, true, true], current := 1 } 4
      = (List.replicate 4 (1 % 3), { keys := [true, true, true], current := 1 }) :=
  forwardToRunner_all_alive_one_handle { keys := [true, true, true], current := 1 } 4
    (by decide) (by decide)

/-! ## Claim C3 -/

/-- Claim C3 (code bug): for a NON-EMPTY registry whose handles are all dead,
the selection scan of `getRunner` never completes: for every bound `fuel` on
the number of loop-body executions the loop is still running (`Except.ok
none`), so dispatch does not terminate, no snapshot-exhaustion exit exists,
and the job is never dropped with a log message.  Only the empty registry
returns the "No runners available" error.  (The later iteration
`core.RunnerPool.ForwardToRunner` adds an explicit all-dead abort check,
its comment calling it a guard "to avoid looping forever".) -/
theorem getRunner_all_dead_never_returns (keys : List Bool) (hne : keys ≠ [])
    (hdead : ∀ b ∈ keys, b = false) (cur fuel : Nat) :
    getRunner keys cur fuel = Except.ok none := by
  have hlen : keys.length ≠ 0 := by
    simpa [List.length_eq_zero] using hne
  simp only [getRunner, hlen, if_false]
  rw [rrScan_all_dead keys hdead fuel (cur % keys.length) cur]

/-- Witness for C3's theorem: the scenario S5 registry `{R1(dead)}` with
cursor 0; even after 1000 loop-body executions the scan has not returned. -/
theorem getRunner_all_dead_never_returns_witness :
    getRunner [false] 0 1000 = Except.ok none :=
  getRunner_all_dead_never_returns [false] (by decide) (by decide) 0 1000

/-! ## Claim C4 -/

/-- Claim C4 (code bug): a health-check probe never changes the `alive` field
of the handle stored in the registry, because both cited `HealthCheck`
methods have value receivers.  First conjunct: the stored `ServerRunner`
(core/runner.go) is unchanged by any probe outcome.  Second: the
`TestRunnerServer` method (dispatcher/repostore.go) does not even change its
local copy.  Third and fourth: at the failing input - a stored handle with
`alive = false` probed successfully with status 200 - the method-local copy
ends with `alive = true` but the stored handle still has `alive = false`,
contradicting the claim that the stored alive field equals the probe's
success. -/
theorem healthCheck_stored_handle_unchanged :
    (∀ (tr : ServerRunner) (e : Bool) (s : Nat), healthCheckStored tr e s = tr)
    ∧ (∀ (tr : TestRunnerServer) (e : Bool) (s : Nat), tr.HealthCheck e s = tr)
    ∧ (ServerRunner.HealthCheck { URL := "http://r1", alive := false } false 200).alive
        = true
    ∧ (healthCheckStored { URL := "http://r1", alive := false } false 200).alive
        = false := by
  refine ⟨fun tr e s => rfl, fun tr e s => ?_, by decide, by decide⟩
  unfold TestRunnerServer.HealthCheck
  split <;> rfl

/-! ## Claim C5 -/

/-- Claim C5 counterexample: `RunCommitJob` for a job whose temporary
directory was created successfully but whose `git.PlainClone` failed
returns the clone error while the temporary clone directory still exists -
`defer os.RemoveAll(dir)` is registered only after `cloneRepository`
returned without error, and `cloneRepository` itself returns the clone
error without removing the directory it created. -/
theorem runCommitJob_clone_failure_leak_cex :
    (RunCommitJob (TempDirResult.ok "/tmp/narwhal-job1") GitCloneResult.err
        ManifestResult.ok).1 = Except.error "clone error"
    ∧ (RunCommitJob (TempDirResult.ok "/tmp/narwhal-job1") GitCloneResult.err
        ManifestResult.ok).2 = true := by
  decide

/-- Claim C5 amended: after `RunCommitJob` returns, the temporary clone
directory exists exactly on the path where the directory was created and
the git clone itself then failed; on every other exit path (tempdir
creation failure, manifest failure, success) no clone directory remains. -/
theorem runCommitJob_cleanup (td : TempDirResult) (g : GitCloneResult)
    (m : ManifestResult) :
    (RunCommitJob td g m).2 = true ↔
      (∃ d, td = TempDirResult.ok d) ∧ g = GitCloneResult.err := by
  cases td <;> cases g <;> cases m <;> simp [RunCommitJob, cloneRepository]

/-! ## Claim C6 -/

/-- Claim C6 counterexample: an image-pull failure during worker job
execution is an expected error path, yet `backend.runContainer` answers it
with `panic(err)` instead of returning or reporting the error. -/
theorem runContainer_image_pull_panic_cex :
    runContainer { newEnvClient := Except.ok (),
                   imagePull := Except.error "pull access denied",
                   containerCreate := Except.ok "c0",
                   containerStart := Except.ok (),
                   containerWait := Except.ok (),
                   containerLogs := Except.ok () }
      = GoOutcome.panicked "pull access denied" := by
  decide

/-- Claim C6 amended: the RPC executor `RunnerProxy.ExecuteCommitJob`
reports every expected error (docker client creation, image pull, command
construction, container create, container start) in its reply without
panicking; `backend.runContainer`, however, returns normally only when all
six docker calls succeed and panics on any failing call, image pull,
container create and container start included. -/
theorem worker_error_paths (envClient pull : Except String Unit)
    (cmd : Except String (List String)) (create : Except String String)
    (start : Except String Unit) (ops : DockerOps) :
    (∃ r, ExecuteCommitJob envClient pull cmd create start = GoOutcome.ret r)
    ∧ (runContainer ops = GoOutcome.ret () ↔
        (ops.newEnvClient.isOk = true ∧ ops.imagePull.isOk = true
         ∧ ops.containerCreate.isOk = true ∧ ops.containerStart.isOk = true
         ∧ ops.containerWait.isOk = true ∧ ops.containerLogs.isOk = true))
    ∧ (runContainer ops = GoOutcome.ret ()
        ∨ ∃ msg, runContainer ops = GoOutcome.panicked msg) := by
  refine ⟨?_, ?_, ?_⟩
  · cases envClient <;> cases pull <;> cases cmd <;> cases create <;> cases start <;>
      exact ⟨_, rfl⟩
  · obtain ⟨f1, f2, f3, f4, f5, f6⟩ := ops
    cases f1 <;> cases f2 <;> cases f3 <;> cases f4 <;> cases f5 <;> cases f6 <;>
      simp [runContainer, Except.isOk, Except.toBool]
  · obtain ⟨f1, f2, f3, f4, f5, f6⟩ := ops
    cases f1 <;> cases f2 <;> cases f3 <;> cases f4 <;> cases f5 <;> cases f6 <;>
      simp [runContainer]

/-! ## Claim C8 -/

/-- Claim C8: registration duplicates are rejected with the
already-registered error and leave the registry untouched; a dial failure
returns the dial error and leaves the registry untouched (the handle is not
inserted); only when the rpc channel opens is the handle appended to the
registry, marked alive (map value `true`), with its `rpcClient` field set to
the opened channel and the rest of the state untouched. -/
theorem addRunnerProxy_spec (reg : RunnerRegistry) (r : RunnerProxy)
    (dial : Option Nat) :
    (reg.runners.any (fun p => p.1.id == r.id) = true →
        reg.AddRunnerProxy r dial
          = (Except.error "RunnerProxy already present in the registry", reg))
    ∧ (reg.runners.any (fun p => p.1.id == r.id) = false →
        (reg.AddRunnerProxy r none).1 = Except.error "dial tcp: connection refused"
        ∧ (reg.AddRunnerProxy r none).2 = reg)
    ∧ (∀ ch, reg.runners.any (fun p => p.1.id == r.id) = false →
        (reg.AddRunnerProxy r (some ch)).1 = Except.ok ()
        ∧ (reg.AddRunnerProxy r (some ch)).2.runners = reg.runners ++ [(r, true)]
        ∧ (reg.AddRunnerProxy r (some ch)).2.rpcClients.lookup r.id = some ch
        ∧ (reg.AddRunnerProxy r (some ch)).2.store = reg.store
        ∧ (reg.AddRunnerProxy r (some ch)).2.forwarded = reg.forwarded) := by
  refine ⟨?_, ?_, ?_⟩
  · intro hdup
    simp [RunnerRegistry.AddRunnerProxy, hdup]
  · intro hfresh
    simp [RunnerRegistry.AddRunnerProxy, hfresh]
  · intro ch hfresh
    simp [RunnerRegistry.AddRunnerProxy, hfresh, lookup_putAssoc_self]

/-! ## Claim C9 -/

/-- Claim C9: duplicate detection in `AddRunnerProxy` compares the handle's
pointer identity, not its address: two distinct proxies carrying the same
`Addr` both register successfully and the registry then holds two handles
for that one address, while re-registering the very same handle is the only
way to get the already-registered error. -/
theorem addRunnerProxy_identity_not_address (reg : RunnerRegistry)
    (r1 r2 : RunnerProxy) (ch1 ch2 : Nat)
    (hid : r1.id ≠ r2.id) (_haddr : r1.Addr = r2.Addr)
    (h1 : reg.runners.any (fun p => p.1.id == r1.id) = false)
    (h2 : reg.runners.any (fun p => p.1.id == r2.id) = false) :
    (reg.AddRunnerProxy r1 (some ch1)).1 = Except.ok ()
    ∧ ((reg.AddRunnerProxy r1 (some ch1)).2.AddRunnerProxy r2 (some ch2)).1
        = Except.ok ()
    ∧ ((reg.AddRunnerProxy r1 (some ch1)).2.AddRunnerProxy r2 (some ch2)).2.runners
        = reg.runners ++ [(r1, true), (r2, true)]
    ∧ ((reg.AddRunnerProxy r1 (some ch1)).2.AddRunnerProxy r1 (some ch2)).1
        = Except.error "RunnerProxy already present in the registry" := by
  have hne21 : (r1.id == r2.id) = false := by
    simpa using hid
  have hself : (r1.id == r1.id) = true := by simp
  refine ⟨?_, ?_, ?_, ?_⟩
  · simp [RunnerRegistry.AddRunnerProxy, h1]
  · simp [RunnerRegistry.AddRunnerProxy, h1, h2, hne21]
  · simp [RunnerRegistry.AddRunnerProxy, h1, h2, hne21]
  · simp [RunnerRegistry.AddRunnerProxy, h1, hself]

/-- Witness for C9 at a concrete registry: an empty registry, two proxies
with distinct identities but the same address "10.0.0.1:9090". -/
theorem addRunnerProxy_identity_not_address_witness :
    (({} : RunnerRegistry).AddRunnerProxy { id := 1, Addr := "10.0.0.1:9090" }
        (some 7)).1 = Except.ok ()
    ∧ ((({} : RunnerRegistry).AddRunnerProxy { id := 1, Addr := "10.0.0.1:9090" }
        (some 7)).2.AddRunnerProxy { id := 2, Addr := "10.0.0.1:9090" } (some 8)).1
        = Except.ok ()
    ∧ ((({} : RunnerRegistry).AddRunnerProxy { id := 1, Addr := "10.0.0.1:9090" }
        (some 7)).2.AddRunnerProxy { id := 2, Addr := "10.0.0.1:9090" } (some 8)).2.runners
        = ({} : RunnerRegistry).runners
            ++ [({ id := 1, Addr := "10.0.0.1:9090" }, true),
                ({ id := 2, Addr := "10.0.0.1:9090" }, true)]
    ∧ ((({} : RunnerRegistry).AddRunnerProxy { id := 1, Addr := "10.0.0.1:9090" }
        (some 7)).2.AddRunnerProxy { id := 1, Addr := "10.0.0.1:9090" } (some 8)).1
        = Except.error "RunnerProxy already present in the registry" :=
  addRunnerProxy_identity_not_address {} { id := 1, Addr := "10.0.0.1:9090" }
    { id := 2, Addr := "10.0.0.1:9090" } 7 8 (by decide) (by decide) (by decide)
    (by decide)

/-! ## Claim C10 -/

/-- Claim C10: `RemoveRunnerProxy` on a handle whose `rpcClient` was never
set (registration never attempted or failed before dialing back the field)
dereferences the nil channel and crashes (`none`); on a handle whose
channel was opened by a successful registration it removes the handle from
the set, and calling it again on the already-removed handle still succeeds
and leaves the runner set unchanged (idempotent on registered handles),
because `Close` on the surviving channel merely returns an error. -/
theorem removeRunnerProxy_spec (reg : RunnerRegistry) (r : RunnerProxy) :
    (reg.rpcClients.lookup r.id = none → reg.RemoveRunnerProxy r = none)
    ∧ (∀ ch, reg.rpcClients.lookup r.id = some ch →
        ∃ reg', reg.RemoveRunnerProxy r = some reg'
          ∧ reg'.runners = reg.runners.filter (fun p => !(p.1.id == r.id))
          ∧ reg'.RemoveRunnerProxy r = some reg') := by
  refine ⟨?_, ?_⟩
  · intro hnil
    simp [RunnerRegistry.RemoveRunnerProxy, hnil]
  · intro ch hch
    refine ⟨{ reg with
              runners := reg.runners.filter (fun p => !(p.1.id == r.id)) },
            ?_, rfl, ?_⟩
    · simp [RunnerRegistry.RemoveRunnerProxy, hch]
    · simp only [RunnerRegistry.RemoveRunnerProxy]
      rw [show ({ reg with
              runners := reg.runners.filter (fun p => !(p.1.id == r.id)) } :
            RunnerRegistry).rpcClients = reg.rpcClients from rfl, hch]
      simp [List.filter_filter]
